import Mathlib

set_option maxHeartbeats 1000000

deriving instance DecidableEq for Except

/-- Team labels for a match roster; the source uses the literal union "A" | "B". -/
inductive Team
  | A
  | B
  deriving DecidableEq

/-- Player positions; the source uses the literal union
"goalkeeper" | "defender" | "midfielder" | "forward". -/
inductive Position
  | goalkeeper
  | defender
  | midfielder
  | forward
  deriving DecidableEq

/-- Match lifecycle status; the source uses "open" | "full" | "cancelled" | "completed".
The source's "open" is spelled `opened` here because `open` is a Lean keyword. -/
inductive MatchStatus
  | opened
  | full
  | cancelled
  | completed
  deriving DecidableEq

/-- One row of the `participants` table for a single match: the user together
with the team and position chosen at join time. -/
structure Participant where
  userId : Nat
  team : Team
  position : Position
  deriving DecidableEq

/-- One `matches` row, with its `participants` rows inlined as a list (the
participants table restricted to this match, in insertion order). -/
structure MatchState where
  creatorId : Nat
  location : String
  dateTime : Int
  playersNeeded : Nat
  description : Option String
  status : MatchStatus
  locationAvailable : Bool
  partyName : String
  participants : List Participant
  deriving DecidableEq

/-- Arguments of the `createMatch` mutation.  `playersNeeded` is a `Nat`:
the source's evenness check rejects every non-integer anyway, and all claims
range over matches that passed creation validation. -/
structure CreateArgs where
  location : String
  dateTime : Int
  playersNeeded : Nat
  description : Option String
  locationAvailable : Bool
  partyName : Option String
  deriving DecidableEq

/-- Error outcomes of `createMatch`, one per `throw` site. -/
inductive CreateError
  | playersOutOfRange
  | playersOdd
  | dateNotFuture
  | partyNameTaken
  deriving DecidableEq

/-- The resolved party name: `args.partyName?.trim() || defaultPartyName` where
the default is `Football at {location}` (a trimmed-empty explicit name is falsy
in the source, so it falls back to the default). -/
def resolvedPartyName (args : CreateArgs) : String :=
  match args.partyName with
  | some s => if s.trim = "" then "Football at " ++ args.location else s.trim
  | none => "Football at " ++ args.location

/-- The `createMatch` mutation.  `now` is `Date.now()`; `existingPartyNames`
are the `partyName` fields of the matches already in the database.  The
uniqueness probe mirrors the source's `q.eq(q.field("partyName"), partyName)`,
which is an exact (case-sensitive) string comparison. -/
def createMatch (now : Int) (existingPartyNames : List String) (creatorId : Nat)
    (args : CreateArgs) : Except CreateError MatchState :=
  if args.playersNeeded < 6 ∨ args.playersNeeded > 22 then .error .playersOutOfRange
  else if args.playersNeeded % 2 ≠ 0 then .error .playersOdd
  else if args.dateTime ≤ now then .error .dateNotFuture
  else if existingPartyNames.any (fun s => decide (s = resolvedPartyName args)) then
    .error .partyNameTaken
  else
    .ok { creatorId := creatorId
          location := args.location
          dateTime := args.dateTime
          playersNeeded := args.playersNeeded
          description := args.description
          status := MatchStatus.opened
          locationAvailable := args.locationAvailable
          partyName := resolvedPartyName args
          participants := [] }

/-- The participants of `m` on team `t` (the source's `teamParticipants`). -/
def teamParticipants (m : MatchState) (t : Team) : List Participant :=
  m.participants.filter (fun p => decide (p.team = t))

/-- Source: `maxPerTeam = playersNeeded / 2`.  `playersNeeded` is even for every match
that passed creation validation, so Nat division coincides with the source's
exact division. -/
def maxPerTeam (m : MatchState) : Nat := m.playersNeeded / 2

/-- Source: `maxFieldPlayersPerTeam = maxPerTeam - 1` (goalkeeper slot reserved). -/
def maxFieldPlayersPerTeam (m : MatchState) : Nat := maxPerTeam m - 1

/-- Source: `maxPerFieldPosition = Math.ceil(maxFieldPlayersPerTeam / 3)`, as Nat ceiling division. -/
def maxPerFieldPosition (m : MatchState) : Nat := (maxFieldPlayersPerTeam m + 2) / 3

/-- The source's `goalkeepers.length` for team `t`. -/
def goalkeeperCount (m : MatchState) (t : Team) : Nat :=
  ((teamParticipants m t).filter (fun p => decide (p.position = Position.goalkeeper))).length

/-- The source's `positionCount`: participants of team `t` at position `q`. -/
def positionCount (m : MatchState) (t : Team) (q : Position) : Nat :=
  ((teamParticipants m t).filter (fun p => decide (p.position = q))).length

/-- Whether `uid` already has a participant row for this match (the source's
`existingParticipation` probe through the by_matchId_and_userId index). -/
def hasJoined (m : MatchState) (uid : Nat) : Bool :=
  m.participants.any (fun p => decide (p.userId = uid))

/-- Error outcomes of the join mutations, one per `throw` site. -/
inductive JoinError
  | notOpen
  | alreadyJoined
  | matchFull
  | teamFull (t : Team)
  | goalkeeperTaken (t : Team)
  | positionFull (t : Team) (q : Position)
  | notCreator
  deriving DecidableEq

/-- The successful tail of a join: insert the participant row, then patch the
status to `full` when `allParticipants.length + 1 >= playersNeeded`. -/
def insertParticipant (m : MatchState) (uid : Nat) (t : Team) (pos : Position) : MatchState :=
  { m with
    participants := m.participants ++ [{ userId := uid, team := t, position := pos }]
    status :=
      if m.participants.length + 1 ≥ m.playersNeeded then MatchStatus.full else m.status }

/-- The check-and-insert body shared verbatim by `joinMatch` (from its status
check on) and `creatorJoinMatch` (after its extra creator check). -/
def joinCore (m : MatchState) (uid : Nat) (t : Team) (pos : Position) :
    Except JoinError MatchState :=
  if m.status ≠ MatchStatus.opened then .error .notOpen
  else if hasJoined m uid then .error .alreadyJoined
  else if m.participants.length ≥ m.playersNeeded then .error .matchFull
  else if (teamParticipants m t).length ≥ maxPerTeam m then .error (.teamFull t)
  else if pos = Position.goalkeeper ∧ goalkeeperCount m t ≥ 1 then .error (.goalkeeperTaken t)
  else if pos ≠ Position.goalkeeper ∧ positionCount m t pos ≥ maxPerFieldPosition m then
    .error (.positionFull t pos)
  else .ok (insertParticipant m uid t pos)

/-- The `joinMatch` mutation (for a match that exists). -/
def joinMatch (m : MatchState) (uid : Nat) (t : Team) (pos : Position) :
    Except JoinError MatchState :=
  joinCore m uid t pos

/-- The `creatorJoinMatch` mutation: identical to `joinMatch` except that the
caller must be the match creator (checked before the status check). -/
def creatorJoinMatch (m : MatchState) (uid : Nat) (t : Team) (pos : Position) :
    Except JoinError MatchState :=
  if m.creatorId ≠ uid then .error .notCreator
  else joinCore m uid t pos

/-- Error outcome of `leaveMatch` (the only throw after the match lookup). -/
inductive LeaveError
  | notJoined
  deriving DecidableEq

/-- The `leaveMatch` mutation: delete the caller's participant row (the unique
row with this userId); if the match status was `full`, revert it to `open`.
There is no status gate: the deletion happens in any lifecycle state. -/
def leaveMatch (m : MatchState) (uid : Nat) : Except LeaveError MatchState :=
  if hasJoined m uid then
    .ok { m with
          participants := m.participants.eraseP (fun p => decide (p.userId = uid))
          status := if m.status = MatchStatus.full then MatchStatus.opened else m.status }
  else .error .notJoined

/-- Error outcomes of `cancelMatch` / `completeMatch`.  `notCreator` is the
spec taxonomy's AuthorizationError, `alreadyTerminal` its InvalidStateError. -/
inductive LifecycleError
  | notCreator
  | alreadyTerminal
  deriving DecidableEq

/-- The `cancelMatch` mutation. -/
def cancelMatch (m : MatchState) (uid : Nat) : Except LifecycleError MatchState :=
  if m.creatorId ≠ uid then .error .notCreator
  else if m.status = MatchStatus.completed ∨ m.status = MatchStatus.cancelled then
    .error .alreadyTerminal
  else .ok { m with status := MatchStatus.cancelled }

/-- The `completeMatch` mutation. -/
def completeMatch (m : MatchState) (uid : Nat) : Except LifecycleError MatchState :=
  if m.creatorId ≠ uid then .error .notCreator
  else if m.status = MatchStatus.completed ∨ m.status = MatchStatus.cancelled then
    .error .alreadyTerminal
  else .ok { m with status := MatchStatus.completed }

/-- The database state after a `cancelMatch` call: a thrown error aborts the
transaction, leaving the match unchanged. -/
def applyCancel (m : MatchState) (uid : Nat) : MatchState :=
  match cancelMatch m uid with
  | .ok m' => m'
  | .error _ => m

/-- The database state after a `completeMatch` call. -/
def applyComplete (m : MatchState) (uid : Nat) : MatchState :=
  match completeMatch m uid with
  | .ok m' => m'
  | .error _ => m

/-- One participant-mutating request against a match. -/
inductive RosterOp
  | join (uid : Nat) (t : Team) (pos : Position)
  | creatorJoin (uid : Nat) (t : Team) (pos : Position)
  | leave (uid : Nat)
  deriving DecidableEq

/-- The database state after one request: a thrown error aborts the
transaction, leaving the match unchanged. -/
def applyOp (m : MatchState) (op : RosterOp) : MatchState :=
  match op with
  | .join uid t pos =>
    match joinMatch m uid t pos with
    | .ok m' => m'
    | .error _ => m
  | .creatorJoin uid t pos =>
    match creatorJoinMatch m uid t pos with
    | .ok m' => m'
    | .error _ => m
  | .leave uid =>
    match leaveMatch m uid with
    | .ok m' => m'
    | .error _ => m

/-- Run a sequence of participant-mutating requests. -/
def runOps (m : MatchState) (ops : List RosterOp) : MatchState :=
  ops.foldl applyOp m

/-- Modelled from the spec: the §7 error taxonomy classes the three
capacity-exhausted rejections of a join (match already full, team already
full, position ceiling reached) as `CapacityError`; the remaining rejections
are state, conflict or authorization errors. -/
def isCapacityError : JoinError → Bool
  | .matchFull => true
  | .teamFull _ => true
  | .positionFull _ _ => true
  | _ => false

/-- A successful `joinCore` implies every guard passed and the result is the
inserted state. -/
theorem joinCore_ok (m m' : MatchState) (uid : Nat) (t : Team) (pos : Position)
    (h : joinCore m uid t pos = Except.ok m') :
    m.status = MatchStatus.opened ∧
    hasJoined m uid = false ∧
    m.participants.length < m.playersNeeded ∧
    (teamParticipants m t).length < maxPerTeam m ∧
    (pos = Position.goalkeeper → goalkeeperCount m t = 0) ∧
    (pos ≠ Position.goalkeeper → positionCount m t pos < maxPerFieldPosition m) ∧
    m' = insertParticipant m uid t pos := by
  unfold joinCore at h
  split_ifs at h with h1 h2 h3 h4 h5 h6
  push_neg at h5 h6
  injection h with h
  refine ⟨not_ne_iff.mp h1, by simpa using h2, by omega, by omega, ?_, ?_, h.symm⟩
  · intro hp
    have := h5 hp
    omega
  · intro hp
    exact h6 hp

/-- A successful `creatorJoinMatch` implies the caller is the creator and the
shared join body succeeded. -/
theorem creatorJoinMatch_ok (m m' : MatchState) (uid : Nat) (t : Team) (pos : Position)
    (h : creatorJoinMatch m uid t pos = Except.ok m') :
    m.creatorId = uid ∧ joinCore m uid t pos = Except.ok m' := by
  unfold creatorJoinMatch at h
  split_ifs at h with hc
  exact ⟨not_ne_iff.mp hc, h⟩

/-- A successful `leaveMatch` deletes the caller's row and reverts `full` to `open`. -/
theorem leaveMatch_ok (m m' : MatchState) (uid : Nat)
    (h : leaveMatch m uid = Except.ok m') :
    m'.participants = m.participants.eraseP (fun p => decide (p.userId = uid)) ∧
    m'.playersNeeded = m.playersNeeded ∧
    m'.status = (if m.status = MatchStatus.full then MatchStatus.opened else m.status) ∧
    hasJoined m uid = true := by
  unfold leaveMatch at h
  split_ifs at h with h1 h2
  · injection h with h
    subst h
    exact ⟨rfl, rfl, by simp [h2], h1⟩
  · injection h with h
    subst h
    exact ⟨rfl, rfl, by simp [h2], h1⟩

theorem participants_insertParticipant (m : MatchState) (uid : Nat) (t : Team) (pos : Position) :
    (insertParticipant m uid t pos).participants =
      m.participants ++ [{ userId := uid, team := t, position := pos }] := rfl

theorem playersNeeded_insertParticipant (m : MatchState) (uid : Nat) (t : Team) (pos : Position) :
    (insertParticipant m uid t pos).playersNeeded = m.playersNeeded := rfl

theorem length_insertParticipant (m : MatchState) (uid : Nat) (t : Team) (pos : Position) :
    (insertParticipant m uid t pos).participants.length = m.participants.length + 1 := by
  simp [insertParticipant]

theorem teamParticipants_insertParticipant (m : MatchState) (uid : Nat) (t : Team)
    (pos : Position) (t' : Team) :
    (teamParticipants (insertParticipant m uid t pos) t').length =
      (teamParticipants m t').length + (if t = t' then 1 else 0) := by
  simp only [teamParticipants, insertParticipant, List.filter_append, List.length_append]
  by_cases h : t = t' <;> simp [List.filter_cons, h]

theorem positionCount_insertParticipant (m : MatchState) (uid : Nat) (t : Team)
    (pos : Position) (t' : Team) (q : Position) :
    positionCount (insertParticipant m uid t pos) t' q =
      positionCount m t' q + (if t = t' ∧ pos = q then 1 else 0) := by
  simp only [positionCount, teamParticipants, insertParticipant, List.filter_append,
    List.length_append]
  by_cases ht : t = t'
  · by_cases hq : pos = q <;> simp [List.filter_cons, ht, hq]
  · simp [List.filter_cons, ht]

theorem goalkeeperCount_eq_positionCount (m : MatchState) (t : Team) :
    goalkeeperCount m t = positionCount m t Position.goalkeeper := rfl

/-- Per-match capacity invariant: total and per-team participant bounds. -/
def capacityInv (m : MatchState) : Prop :=
  m.participants.length ≤ m.playersNeeded ∧
  ∀ t, (teamParticipants m t).length ≤ maxPerTeam m

/-- Per-team goalkeeper invariant. -/
def goalkeeperInv (m : MatchState) : Prop :=
  ∀ t, goalkeeperCount m t ≤ 1

theorem playersNeeded_applyOp (m : MatchState) (op : RosterOp) :
    (applyOp m op).playersNeeded = m.playersNeeded := by
  cases op with
  | join uid t pos =>
    simp only [applyOp]
    split
    · next m' hj =>
        obtain ⟨_, _, _, _, _, _, hm'⟩ := joinCore_ok _ _ _ _ _ hj
        subst hm'; rfl
    · rfl
  | creatorJoin uid t pos =>
    simp only [applyOp]
    split
    · next m' hj =>
        obtain ⟨_, hj'⟩ := creatorJoinMatch_ok _ _ _ _ _ hj
        obtain ⟨_, _, _, _, _, _, hm'⟩ := joinCore_ok _ _ _ _ _ hj'
        subst hm'; rfl
    · rfl
  | leave uid =>
    simp only [applyOp]
    split
    · next m' hl => exact (leaveMatch_ok _ _ _ hl).2.1
    · rfl

/-- The capacity invariant is preserved whenever a successful `joinCore`
result replaces the state. -/
theorem capacityInv_joinCore (m m' : MatchState) (uid : Nat) (t : Team) (pos : Position)
    (hj : joinCore m uid t pos = Except.ok m') (h : capacityInv m) : capacityInv m' := by
  obtain ⟨hlen, hteam⟩ := h
  obtain ⟨_, _, hlt, htlt, _, _, hm'⟩ := joinCore_ok _ _ _ _ _ hj
  subst hm'
  constructor
  · rw [length_insertParticipant, playersNeeded_insertParticipant]
    omega
  · intro t'
    have hmx : maxPerTeam (insertParticipant m uid t pos) = maxPerTeam m := rfl
    rw [teamParticipants_insertParticipant, hmx]
    by_cases he : t = t'
    · subst he
      rw [if_pos rfl]
      omega
    · rw [if_neg he]
      have := hteam t'
      omega

/-- The goalkeeper invariant is preserved whenever a successful `joinCore`
result replaces the state. -/
theorem goalkeeperInv_joinCore (m m' : MatchState) (uid : Nat) (t : Team) (pos : Position)
    (hj : joinCore m uid t pos = Except.ok m') (h : goalkeeperInv m) : goalkeeperInv m' := by
  obtain ⟨_, _, _, _, hgk, _, hm'⟩ := joinCore_ok _ _ _ _ _ hj
  subst hm'
  intro t'
  rw [goalkeeperCount_eq_positionCount, positionCount_insertParticipant]
  by_cases hc : t = t' ∧ pos = Position.goalkeeper
  · have h0 : goalkeeperCount m t = 0 := hgk hc.2
    rw [goalkeeperCount_eq_positionCount, hc.1] at h0
    simp only [if_pos hc]
    omega
  · simp only [if_neg hc]
    have := h t'
    rw [goalkeeperCount_eq_positionCount] at this
    omega

/-- A successful leave only shrinks the participant list. -/
theorem leaveMatch_sublist (m m' : MatchState) (uid : Nat)
    (h : leaveMatch m uid = Except.ok m') : m'.participants.Sublist m.participants := by
  obtain ⟨hp, _, _, _⟩ := leaveMatch_ok _ _ _ h
  rw [hp]
  exact List.eraseP_sublist _

theorem capacityInv_applyOp (m : MatchState) (op : RosterOp) (h : capacityInv m) :
    capacityInv (applyOp m op) := by
  cases op with
  | join uid t pos =>
    simp only [applyOp]
    split
    · next m' hj => exact capacityInv_joinCore _ _ _ _ _ hj h
    · exact h
  | creatorJoin uid t pos =>
    simp only [applyOp]
    split
    · next m' hj => exact capacityInv_joinCore _ _ _ _ _ (creatorJoinMatch_ok _ _ _ _ _ hj).2 h
    · exact h
  | leave uid =>
    simp only [applyOp]
    split
    · next m' hl =>
        obtain ⟨hlen, hteam⟩ := h
        have hsub := leaveMatch_sublist _ _ _ hl
        have hn := (leaveMatch_ok _ _ _ hl).2.1
        constructor
        · rw [hn]
          exact le_trans hsub.length_le hlen
        · intro t'
          have hf : (teamParticipants m' t').Sublist (teamParticipants m t') :=
            List.Sublist.filter _ hsub
          have : maxPerTeam m' = maxPerTeam m := by
            unfold maxPerTeam
            rw [hn]
          rw [this]
          exact le_trans hf.length_le (hteam t')
    · exact h

theorem goalkeeperInv_applyOp (m : MatchState) (op : RosterOp) (h : goalkeeperInv m) :
    goalkeeperInv (applyOp m op) := by
  cases op with
  | join uid t pos =>
    simp only [applyOp]
    split
    · next m' hj => exact goalkeeperInv_joinCore _ _ _ _ _ hj h
    · exact h
  | creatorJoin uid t pos =>
    simp only [applyOp]
    split
    · next m' hj => exact goalkeeperInv_joinCore _ _ _ _ _ (creatorJoinMatch_ok _ _ _ _ _ hj).2 h
    · exact h
  | leave uid =>
    simp only [applyOp]
    split
    · next m' hl =>
        intro t'
        have hsub := leaveMatch_sublist _ _ _ hl
        have hf : ((teamParticipants m' t').filter
            (fun p => decide (p.position = Position.goalkeeper))).Sublist
            ((teamParticipants m t').filter
            (fun p => decide (p.position = Position.goalkeeper))) :=
          List.Sublist.filter _ (List.Sublist.filter _ hsub)
        exact le_trans hf.length_le (h t')
    · exact h

theorem capacityInv_runOps (m : MatchState) (ops : List RosterOp) (h : capacityInv m) :
    capacityInv (runOps m ops) := by
  induction ops generalizing m with
  | nil => exact h
  | cons op ops ih => exact ih _ (capacityInv_applyOp _ _ h)

theorem goalkeeperInv_runOps (m : MatchState) (ops : List RosterOp) (h : goalkeeperInv m) :
    goalkeeperInv (runOps m ops) := by
  induction ops generalizing m with
  | nil => exact h
  | cons op ops ih => exact ih _ (goalkeeperInv_applyOp _ _ h)

theorem playersNeeded_runOps (m : MatchState) (ops : List RosterOp) :
    (runOps m ops).playersNeeded = m.playersNeeded := by
  induction ops generalizing m with
  | nil => rfl
  | cons op ops ih =>
    have := playersNeeded_applyOp m op
    calc (runOps (applyOp m op) ops).playersNeeded = (applyOp m op).playersNeeded := ih _
      _ = m.playersNeeded := this

/-- A successful `createMatch` yields an empty, open roster whose
`playersNeeded` passed validation. -/
theorem createMatch_ok (now : Int) (names : List String) (creatorId : Nat)
    (args : CreateArgs) (m0 : MatchState)
    (h : createMatch now names creatorId args = Except.ok m0) :
    m0.participants = [] ∧ m0.playersNeeded = args.playersNeeded ∧
    m0.status = MatchStatus.opened ∧
    args.playersNeeded % 2 = 0 ∧ 6 ≤ args.playersNeeded ∧ args.playersNeeded ≤ 22 := by
  unfold createMatch at h
  split_ifs at h with h1 h2 h3 h4
  push_neg at h1 h2
  injection h with h
  subst h
  exact ⟨rfl, rfl, rfl, by omega, by omega, by omega⟩


/-- C1: starting from any successfully created match, no sequence of join,
creator-join and leave operations ever pushes the participant count above
`playersNeeded`, or any team's count above `playersNeeded / 2`. -/
theorem claim1_capacity_invariant (now : Int) (names : List String) (creatorId : Nat)
    (args : CreateArgs) (m0 : MatchState)
    (h : createMatch now names creatorId args = Except.ok m0) (ops : List RosterOp) :
    (runOps m0 ops).participants.length ≤ m0.playersNeeded ∧
    ∀ t, (teamParticipants (runOps m0 ops) t).length ≤ m0.playersNeeded / 2 := by
  obtain ⟨hemp, -, -, -, -, -⟩ := createMatch_ok _ _ _ _ _ h
  have h0 : capacityInv m0 := by
    constructor
    · rw [hemp]
      simp
    · intro t
      unfold teamParticipants
      rw [hemp]
      simp
  obtain ⟨h1, h2⟩ := capacityInv_runOps m0 ops h0
  have hn := playersNeeded_runOps m0 ops
  refine ⟨by rw [← hn]; exact h1, fun t => ?_⟩
  have h3 := h2 t
  unfold maxPerTeam at h3
  rw [hn] at h3
  exact h3

def claim1Args : CreateArgs :=
  { location := "Stade", dateTime := 5, playersNeeded := 6, description := none,
    locationAvailable := true, partyName := none }

def claim1Init : MatchState :=
  { creatorId := 9, location := "Stade", dateTime := 5, playersNeeded := 6,
    description := none, status := MatchStatus.opened, locationAvailable := true,
    partyName := "Football at Stade", participants := [] }

theorem claim1_capacity_invariant_witness :
    createMatch 0 [] 9 claim1Args = Except.ok claim1Init ∧
    ((runOps claim1Init [RosterOp.join 1 Team.A Position.defender]).participants.length ≤
        claim1Init.playersNeeded ∧
      ∀ t, (teamParticipants (runOps claim1Init [RosterOp.join 1 Team.A Position.defender])
        t).length ≤ claim1Init.playersNeeded / 2) :=
  ⟨rfl, claim1_capacity_invariant 0 [] 9 claim1Args claim1Init rfl
    [RosterOp.join 1 Team.A Position.defender]⟩

/-- C5: per team at most one goalkeeper ever (from creation, across any
operation sequence); a goalkeeper join to a team that already has one is
rejected, and a goalkeeper join to a team with none succeeds when the match
is open with room in that team. -/
theorem claim5_goalkeeper_rule :
    (∀ (now : Int) (names : List String) (creatorId : Nat) (args : CreateArgs)
        (m0 : MatchState) (ops : List RosterOp) (t : Team),
      createMatch now names creatorId args = Except.ok m0 →
      goalkeeperCount (runOps m0 ops) t ≤ 1) ∧
    (∀ (m : MatchState) (uid : Nat) (t : Team),
      1 ≤ goalkeeperCount m t →
      (∀ m', joinMatch m uid t Position.goalkeeper ≠ Except.ok m') ∧
      (∀ m', creatorJoinMatch m uid t Position.goalkeeper ≠ Except.ok m')) ∧
    (∀ (m : MatchState) (uid : Nat) (t : Team),
      m.status = MatchStatus.opened →
      hasJoined m uid = false →
      m.participants.length < m.playersNeeded →
      (teamParticipants m t).length < maxPerTeam m →
      goalkeeperCount m t = 0 →
      joinMatch m uid t Position.goalkeeper =
        Except.ok (insertParticipant m uid t Position.goalkeeper) ∧
      (m.creatorId = uid →
        creatorJoinMatch m uid t Position.goalkeeper =
          Except.ok (insertParticipant m uid t Position.goalkeeper))) := by
  refine ⟨?_, ?_, ?_⟩
  · intro now names creatorId args m0 ops t h
    obtain ⟨hemp, -, -, -, -, -⟩ := createMatch_ok _ _ _ _ _ h
    have h0 : goalkeeperInv m0 := by
      intro t'
      unfold goalkeeperCount teamParticipants
      rw [hemp]
      simp
    exact goalkeeperInv_runOps m0 ops h0 t
  · intro m uid t hgk
    constructor
    · intro m' hok
      have := (joinCore_ok _ _ _ _ _ hok).2.2.2.2.1 rfl
      omega
    · intro m' hok
      have := (joinCore_ok _ _ _ _ _ (creatorJoinMatch_ok _ _ _ _ _ hok).2).2.2.2.2.1 rfl
      omega
  · intro m uid t hst hnj hlt htlt hgk
    have hcore : joinCore m uid t Position.goalkeeper =
        Except.ok (insertParticipant m uid t Position.goalkeeper) := by
      unfold joinCore
      rw [if_neg (by simp [hst]), if_neg (by simp [hnj]), if_neg (by omega), if_neg (by omega),
        if_neg (by simp [hgk]), if_neg (by simp)]
    refine ⟨hcore, fun hc => ?_⟩
    unfold creatorJoinMatch
    rw [if_neg (by simp [hc])]
    exact hcore

def claim5Args : CreateArgs :=
  { location := "Parc", dateTime := 5, playersNeeded := 6, description := none,
    locationAvailable := true, partyName := none }

def claim5Init : MatchState :=
  { creatorId := 2, location := "Parc", dateTime := 5, playersNeeded := 6,
    description := none, status := MatchStatus.opened, locationAvailable := true,
    partyName := "Football at Parc", participants := [] }

def claim5State : MatchState :=
  { creatorId := 2, location := "Parc", dateTime := 5, playersNeeded := 6, description := none,
    status := MatchStatus.opened, locationAvailable := true, partyName := "Football at Parc",
    participants := [⟨1, Team.A, Position.goalkeeper⟩] }

theorem claim5_goalkeeper_rule_witness :
    createMatch 0 [] 2 claim5Args = Except.ok claim5Init ∧
    goalkeeperCount (runOps claim5Init [RosterOp.join 1 Team.A Position.goalkeeper]) Team.A ≤ 1 ∧
    (∀ m', joinMatch claim5State 3 Team.A Position.goalkeeper ≠ Except.ok m') ∧
    joinMatch claim5State 3 Team.B Position.goalkeeper =
      Except.ok (insertParticipant claim5State 3 Team.B Position.goalkeeper) := by
  refine ⟨rfl, ?_, ?_, ?_⟩
  · exact claim5_goalkeeper_rule.1 0 [] 2 claim5Args claim5Init
      [RosterOp.join 1 Team.A Position.goalkeeper] Team.A rfl
  · exact (claim5_goalkeeper_rule.2.1 claim5State 3 Team.A (by decide)).1
  · exact (claim5_goalkeeper_rule.2.2 claim5State 3 Team.B rfl (by decide) (by decide)
      (by decide) (by decide)).1

/-- C6: a successful join (either variant) that brings the participant total
to `playersNeeded` sets the status to `full` in the same operation, and a
leave by a participant of a `full` match deletes that row and reverts the
status to `open` unconditionally. -/
theorem claim6_full_transitions (m m' : MatchState) (uid : Nat) (t : Team) (pos : Position) :
    ((joinMatch m uid t pos = Except.ok m' ∨ creatorJoinMatch m uid t pos = Except.ok m') →
      m'.participants.length = m.playersNeeded → m'.status = MatchStatus.full) ∧
    (m.status = MatchStatus.full → hasJoined m uid = true →
      leaveMatch m uid = Except.ok
        { m with participants := m.participants.eraseP (fun p => decide (p.userId = uid)),
                 status := MatchStatus.opened }) := by
  constructor
  · intro hok hfull
    have hcore : joinCore m uid t pos = Except.ok m' := by
      cases hok with
      | inl h => exact h
      | inr h => exact (creatorJoinMatch_ok _ _ _ _ _ h).2
    obtain ⟨-, -, hlt, -, -, -, hm'⟩ := joinCore_ok _ _ _ _ _ hcore
    subst hm'
    rw [length_insertParticipant] at hfull
    simp only [insertParticipant]
    rw [if_pos (by omega)]
  · intro hst hj
    unfold leaveMatch
    rw [if_pos hj, hst]
    simp

def claim6State : MatchState :=
  { creatorId := 0, location := "L", dateTime := 1, playersNeeded := 6, description := none,
    status := MatchStatus.opened, locationAvailable := true, partyName := "P",
    participants := [⟨1, Team.A, Position.goalkeeper⟩, ⟨2, Team.A, Position.defender⟩,
      ⟨3, Team.A, Position.midfielder⟩, ⟨4, Team.B, Position.goalkeeper⟩,
      ⟨5, Team.B, Position.defender⟩] }

def claim6Joined : MatchState :=
  { creatorId := 0, location := "L", dateTime := 1, playersNeeded := 6, description := none,
    status := MatchStatus.full, locationAvailable := true, partyName := "P",
    participants := [⟨1, Team.A, Position.goalkeeper⟩, ⟨2, Team.A, Position.defender⟩,
      ⟨3, Team.A, Position.midfielder⟩, ⟨4, Team.B, Position.goalkeeper⟩,
      ⟨5, Team.B, Position.defender⟩, ⟨6, Team.B, Position.midfielder⟩] }

theorem claim6_full_transitions_witness :
    joinMatch claim6State 6 Team.B Position.midfielder = Except.ok claim6Joined ∧
    claim6Joined.participants.length = claim6State.playersNeeded ∧
    claim6Joined.status = MatchStatus.full ∧
    leaveMatch claim6Joined 6 = Except.ok
      { claim6Joined with
        participants := claim6Joined.participants.eraseP (fun p => decide (p.userId = 6)),
        status := MatchStatus.opened } := by
  refine ⟨by decide, by decide, ?_, ?_⟩
  · exact (claim6_full_transitions claim6State claim6Joined 6 Team.B Position.midfielder).1
      (Or.inl (by decide)) (by decide)
  · exact (claim6_full_transitions claim6Joined claim6Joined 6 Team.B Position.midfielder).2
      rfl (by decide)

/-- C7: cancel and complete reject non-creators with the authorization error
and reject already-terminal matches with the invalid-state error (checked for
the creator), and in every such failure the match is left unchanged, so a
second call on a terminal match never silently succeeds. -/
theorem claim7_lifecycle_guards (m : MatchState) (uid : Nat) :
    (m.creatorId ≠ uid →
      cancelMatch m uid = Except.error LifecycleError.notCreator ∧
      completeMatch m uid = Except.error LifecycleError.notCreator) ∧
    (m.creatorId = uid →
      (m.status = MatchStatus.cancelled ∨ m.status = MatchStatus.completed) →
      cancelMatch m uid = Except.error LifecycleError.alreadyTerminal ∧
      completeMatch m uid = Except.error LifecycleError.alreadyTerminal) ∧
    ((m.creatorId ≠ uid ∨ m.status = MatchStatus.cancelled ∨ m.status = MatchStatus.completed) →
      applyCancel m uid = m ∧ applyComplete m uid = m) := by
  refine ⟨?_, ?_, ?_⟩
  · intro hne
    constructor
    · unfold cancelMatch
      rw [if_pos hne]
    · unfold completeMatch
      rw [if_pos hne]
  · intro hc hterm
    have hterm' : m.status = MatchStatus.completed ∨ m.status = MatchStatus.cancelled :=
      hterm.symm
    constructor
    · unfold cancelMatch
      rw [if_neg (by simp [hc]), if_pos hterm']
    · unfold completeMatch
      rw [if_neg (by simp [hc]), if_pos hterm']
  · intro hd
    by_cases hc : m.creatorId = uid
    · have hterm : m.status = MatchStatus.cancelled ∨ m.status = MatchStatus.completed := by
        tauto
      have hterm' : m.status = MatchStatus.completed ∨ m.status = MatchStatus.cancelled :=
        hterm.symm
      constructor
      · unfold applyCancel cancelMatch
        rw [if_neg (by simp [hc]), if_pos hterm']
      · unfold applyComplete completeMatch
        rw [if_neg (by simp [hc]), if_pos hterm']
    · constructor
      · unfold applyCancel cancelMatch
        rw [if_pos hc]
      · unfold applyComplete completeMatch
        rw [if_pos hc]

def claim7Open : MatchState :=
  { creatorId := 0, location := "L", dateTime := 1, playersNeeded := 6, description := none,
    status := MatchStatus.opened, locationAvailable := true, partyName := "P",
    participants := [] }

def claim7Done : MatchState :=
  { creatorId := 0, location := "L", dateTime := 1, playersNeeded := 6, description := none,
    status := MatchStatus.cancelled, locationAvailable := true, partyName := "P",
    participants := [] }

theorem claim7_lifecycle_guards_witness :
    cancelMatch claim7Open 1 = Except.error LifecycleError.notCreator ∧
    completeMatch claim7Open 1 = Except.error LifecycleError.notCreator ∧
    cancelMatch claim7Done 0 = Except.error LifecycleError.alreadyTerminal ∧
    completeMatch claim7Done 0 = Except.error LifecycleError.alreadyTerminal ∧
    applyCancel claim7Done 0 = claim7Done ∧ applyComplete claim7Done 0 = claim7Done := by
  have h1 := (claim7_lifecycle_guards claim7Open 1).1 (by decide)
  have h2 := (claim7_lifecycle_guards claim7Done 0).2.1 rfl (Or.inl rfl)
  have h3 := (claim7_lifecycle_guards claim7Done 0).2.2 (Or.inr (Or.inl rfl))
  exact ⟨h1.1, h1.2, h2.1, h2.2, h3.1, h3.2⟩

/-- C3 (amended): on a cancelled or completed match both join variants fail
and leave the match unchanged, but `leaveMatch` is not gated on status: a
participant of a terminal match can still leave, deleting their row. -/
theorem claim3_terminal_joins (m : MatchState) (uid : Nat) (t : Team) (pos : Position)
    (hterm : m.status = MatchStatus.cancelled ∨ m.status = MatchStatus.completed) :
    joinMatch m uid t pos = Except.error JoinError.notOpen ∧
    applyOp m (RosterOp.join uid t pos) = m ∧
    (m.creatorId = uid → creatorJoinMatch m uid t pos = Except.error JoinError.notOpen) ∧
    (m.creatorId ≠ uid → creatorJoinMatch m uid t pos = Except.error JoinError.notCreator) ∧
    applyOp m (RosterOp.creatorJoin uid t pos) = m ∧
    (hasJoined m uid = true →
      leaveMatch m uid = Except.ok
        { m with participants := m.participants.eraseP (fun p => decide (p.userId = uid)) }) := by
  have hno : m.status ≠ MatchStatus.opened := by
    rcases hterm with h | h <;> simp [h]
  have hnf : m.status ≠ MatchStatus.full := by
    rcases hterm with h | h <;> simp [h]
  have hjc : joinCore m uid t pos = Except.error JoinError.notOpen := by
    unfold joinCore
    rw [if_pos hno]
  refine ⟨hjc, ?_, ?_, ?_, ?_, ?_⟩
  · simp only [applyOp, joinMatch, hjc]
  · intro hc
    unfold creatorJoinMatch
    rw [if_neg (by simp [hc])]
    exact hjc
  · intro hc
    unfold creatorJoinMatch
    rw [if_pos hc]
  · by_cases hc : m.creatorId = uid
    · have : creatorJoinMatch m uid t pos = Except.error JoinError.notOpen := by
        unfold creatorJoinMatch
        rw [if_neg (by simp [hc])]
        exact hjc
      simp only [applyOp, this]
    · have : creatorJoinMatch m uid t pos = Except.error JoinError.notCreator := by
        unfold creatorJoinMatch
        rw [if_pos hc]
      simp only [applyOp, this]
  · intro hj
    unfold leaveMatch
    rw [if_pos hj, if_neg hnf]

def claim3CexState : MatchState :=
  { creatorId := 0, location := "L", dateTime := 1, playersNeeded := 6, description := none,
    status := MatchStatus.cancelled, locationAvailable := true, partyName := "P",
    participants := [⟨1, Team.A, Position.goalkeeper⟩] }

/-- C3 counterexample: a participant of a cancelled match successfully leaves,
mutating the participant set of a terminal match. -/
theorem claim3_counterexample :
    claim3CexState.status = MatchStatus.cancelled ∧
    leaveMatch claim3CexState 1 = Except.ok
      { creatorId := 0, location := "L", dateTime := 1, playersNeeded := 6, description := none,
        status := MatchStatus.cancelled, locationAvailable := true, partyName := "P",
        participants := [] } :=
  ⟨rfl, rfl⟩

def claim3State : MatchState :=
  { creatorId := 4, location := "L", dateTime := 1, playersNeeded := 6, description := none,
    status := MatchStatus.completed, locationAvailable := true, partyName := "P",
    participants := [⟨4, Team.A, Position.defender⟩] }

theorem claim3_terminal_joins_witness :
    joinMatch claim3State 5 Team.A Position.defender = Except.error JoinError.notOpen ∧
    applyOp claim3State (RosterOp.join 5 Team.A Position.defender) = claim3State ∧
    creatorJoinMatch claim3State 4 Team.A Position.defender = Except.error JoinError.notOpen ∧
    creatorJoinMatch claim3State 5 Team.A Position.defender =
      Except.error JoinError.notCreator ∧
    leaveMatch claim3State 4 = Except.ok
      { claim3State with
        participants := claim3State.participants.eraseP (fun p => decide (p.userId = 4)) } := by
  have h1 := claim3_terminal_joins claim3State 5 Team.A Position.defender (Or.inr rfl)
  have h2 := claim3_terminal_joins claim3State 4 Team.A Position.defender (Or.inr rfl)
  exact ⟨h1.1, h1.2.1, h2.2.2.1 rfl, h1.2.2.2.1 (by decide), h2.2.2.2.2.2 (by decide)⟩

/-- C2 (amended): for an open match, a caller who has not joined, a match and
team that are not yet full, and a non-goalkeeper position, the join (either
variant) is rejected with a capacity error exactly when the team's count at
that position has reached `maxPerFieldPosition` = ceil((playersNeeded/2 - 1)/3). -/
theorem claim2_position_cap (m : MatchState) (uid : Nat) (t : Team) (pos : Position)
    (hopen : m.status = MatchStatus.opened)
    (hnj : hasJoined m uid = false)
    (hnf : m.participants.length < m.playersNeeded)
    (htf : (teamParticipants m t).length < maxPerTeam m)
    (hpos : pos ≠ Position.goalkeeper) :
    ((∃ e, joinMatch m uid t pos = Except.error e ∧ isCapacityError e = true) ↔
      maxPerFieldPosition m ≤ positionCount m t pos) ∧
    (m.creatorId = uid →
      ((∃ e, creatorJoinMatch m uid t pos = Except.error e ∧ isCapacityError e = true) ↔
        maxPerFieldPosition m ≤ positionCount m t pos)) := by
  have hgkc : ¬(pos = Position.goalkeeper ∧ goalkeeperCount m t ≥ 1) := by
    simp [hpos]
  by_cases hcap : maxPerFieldPosition m ≤ positionCount m t pos
  · have hjc : joinCore m uid t pos = Except.error (JoinError.positionFull t pos) := by
      unfold joinCore
      rw [if_neg (by simp [hopen]), if_neg (by simp [hnj]), if_neg (by omega), if_neg (by omega),
        if_neg hgkc, if_pos ⟨hpos, hcap⟩]
    constructor
    · exact ⟨fun _ => hcap, fun _ => ⟨JoinError.positionFull t pos, hjc, rfl⟩⟩
    · intro hc
      refine ⟨fun _ => hcap, fun _ => ⟨JoinError.positionFull t pos, ?_, rfl⟩⟩
      unfold creatorJoinMatch
      rw [if_neg (by simp [hc])]
      exact hjc
  · have hjc : joinCore m uid t pos = Except.ok (insertParticipant m uid t pos) := by
      unfold joinCore
      rw [if_neg (by simp [hopen]), if_neg (by simp [hnj]), if_neg (by omega), if_neg (by omega),
        if_neg hgkc, if_neg (fun hx => hcap hx.2)]
    constructor
    · constructor
      · rintro ⟨e, he, -⟩
        rw [joinMatch, hjc] at he
        exact Except.noConfusion he
      · intro hx
        exact absurd hx hcap
    · intro hc
      constructor
      · rintro ⟨e, he, -⟩
        unfold creatorJoinMatch at he
        rw [if_neg (by simp [hc]), hjc] at he
        exact Except.noConfusion he
      · intro hx
        exact absurd hx hcap

def claim2State : MatchState :=
  { creatorId := 3, location := "L", dateTime := 1, playersNeeded := 10, description := none,
    status := MatchStatus.opened, locationAvailable := true, partyName := "P",
    participants := [⟨1, Team.A, Position.defender⟩, ⟨2, Team.A, Position.defender⟩] }

theorem claim2_position_cap_witness :
    (∃ e, joinMatch claim2State 3 Team.A Position.defender = Except.error e ∧
      isCapacityError e = true) ∧
    (∃ e, creatorJoinMatch claim2State 3 Team.A Position.defender = Except.error e ∧
      isCapacityError e = true) := by
  have h := claim2_position_cap claim2State 3 Team.A Position.defender rfl (by decide)
    (by decide) (by decide) (by decide)
  exact ⟨h.1.mpr (by decide), (h.2 rfl).mpr (by decide)⟩

def claim2CexState : MatchState :=
  { creatorId := 0, location := "L", dateTime := 1, playersNeeded := 10, description := none,
    status := MatchStatus.opened, locationAvailable := true, partyName := "P",
    participants := [⟨1, Team.A, Position.goalkeeper⟩, ⟨2, Team.A, Position.defender⟩,
      ⟨3, Team.A, Position.defender⟩, ⟨4, Team.A, Position.midfielder⟩,
      ⟨5, Team.A, Position.midfielder⟩] }

/-- C2 counterexample: on an open match a forward join to a full team A is
rejected with a capacity error (team capacity) although team A's forward
count (0) is below the position ceiling (2), so "rejected with CapacityError
exactly when the position count reached the ceiling" is false as stated. -/
theorem claim2_counterexample :
    ¬ ((∃ e, joinMatch claim2CexState 6 Team.A Position.forward = Except.error e ∧
          isCapacityError e = true) ↔
        maxPerFieldPosition claim2CexState ≤
          positionCount claim2CexState Team.A Position.forward) := by
  intro h
  have hcap : isCapacityError (JoinError.teamFull Team.A) = true := rfl
  have := h.mp ⟨JoinError.teamFull Team.A, by decide, hcap⟩
  revert this
  decide

def claim4Args : CreateArgs :=
  { location := "Stade", dateTime := 1, playersNeeded := 10, description := none,
    locationAvailable := true, partyName := none }

/-- C4: the uniqueness probe is case-sensitive, so a resolved party name that
collides only case-insensitively with an existing one is accepted and the
match is created, although the claim (and the source's own comment) require a
conflict failure. -/
theorem claim4_case_variant_accepted :
    resolvedPartyName claim4Args = "Football at Stade" ∧
    createMatch 0 ["FOOTBALL AT STADE"] 7 claim4Args = Except.ok
      { creatorId := 7, location := "Stade", dateTime := 1, playersNeeded := 10,
        description := none, status := MatchStatus.opened, locationAvailable := true,
        partyName := "Football at Stade", participants := [] } :=
  ⟨rfl, rfl⟩

/-- Letter grades for rating attributes (the literal union "S" | "A" | "B" | "C" | "D"). -/
inductive Grade
  | S
  | A
  | B
  | C
  | D
  deriving DecidableEq

/-- One `playerRatings` row. -/
structure PlayerRating where
  matchId : Nat
  raterUserId : Nat
  ratedUserId : Nat
  suggestion : Option String
  speedGiven : Option Grade
  defenseGiven : Option Grade
  offenseGiven : Option Grade
  shootingGiven : Option Grade
  dribblingGiven : Option Grade
  passingGiven : Option Grade
  deriving DecidableEq

/-- Arguments of the `submitRating` mutation. -/
structure SubmitRatingArgs where
  matchId : Nat
  ratedUserId : Nat
  suggestion : Option String
  speedGiven : Option Grade
  defenseGiven : Option Grade
  offenseGiven : Option Grade
  shootingGiven : Option Grade
  dribblingGiven : Option Grade
  passingGiven : Option Grade
  deriving DecidableEq

/-- Error outcomes of `submitRating`, one per throw site after authentication
and the match lookup; `alreadyRated` is the spec taxonomy's ConflictError. -/
inductive RatingError
  | noContent
  | matchNotCompleted
  | selfRating
  | raterNotParticipant
  | ratedNotParticipant
  | alreadyRated
  deriving DecidableEq

/-- JS truthiness of the optional suggestion string: absent and `""` are falsy. -/
def suggestionTruthy : Option String → Bool
  | none => false
  | some s => decide (s ≠ "")

/-- The source's `anAttributeIsRated`: at least one of the six optional grades
is present (each present grade is a non-empty string, hence truthy). -/
def anAttributeIsRated (args : SubmitRatingArgs) : Bool :=
  args.speedGiven.isSome || args.defenseGiven.isSome || args.offenseGiven.isSome ||
  args.shootingGiven.isSome || args.dribblingGiven.isSome || args.passingGiven.isSome

/-- The row `submitRating` inserts on success. -/
def newRating (raterId : Nat) (args : SubmitRatingArgs) : PlayerRating :=
  { matchId := args.matchId
    raterUserId := raterId
    ratedUserId := args.ratedUserId
    suggestion := args.suggestion
    speedGiven := args.speedGiven
    defenseGiven := args.defenseGiven
    offenseGiven := args.offenseGiven
    shootingGiven := args.shootingGiven
    dribblingGiven := args.dribblingGiven
    passingGiven := args.passingGiven }

/-- The source's `existingRating` probe: some playerRatings row already has
this (match, rater, ratee) triple. -/
def hasExistingRating (ratings : List PlayerRating) (raterId : Nat)
    (args : SubmitRatingArgs) : Bool :=
  ratings.any (fun r => decide (r.matchId = args.matchId) &&
    decide (r.raterUserId = raterId) && decide (r.ratedUserId = args.ratedUserId))

/-- The `submitRating` mutation, for the match `m` that `args.matchId` refers
to (the not-found throw for a dangling id is outside this model); `ratings`
is the playerRatings table, returned extended on success. -/
def submitRating (m : MatchState) (ratings : List PlayerRating) (raterId : Nat)
    (args : SubmitRatingArgs) : Except RatingError (List PlayerRating) :=
  if ¬ (anAttributeIsRated args || suggestionTruthy args.suggestion) = true then
    .error .noContent
  else if m.status ≠ MatchStatus.completed then .error .matchNotCompleted
  else if raterId = args.ratedUserId then .error .selfRating
  else if ¬ hasJoined m raterId = true then .error .raterNotParticipant
  else if ¬ hasJoined m args.ratedUserId = true then .error .ratedNotParticipant
  else if hasExistingRating ratings raterId args then .error .alreadyRated
  else .ok (ratings ++ [newRating raterId args])

/-- C8: a rating row is inserted exactly when some content is present, the
match is completed, the rater is not the ratee, both participated, and no
row for the triple exists; any failure inserts nothing, and a duplicate
triple (all other conditions met) fails with the conflict error. -/
theorem claim8_submit_rating (m : MatchState) (ratings : List PlayerRating) (raterId : Nat)
    (args : SubmitRatingArgs) :
    (submitRating m ratings raterId args = Except.ok (ratings ++ [newRating raterId args]) ↔
      ((anAttributeIsRated args || suggestionTruthy args.suggestion) = true ∧
       m.status = MatchStatus.completed ∧
       raterId ≠ args.ratedUserId ∧
       hasJoined m raterId = true ∧
       hasJoined m args.ratedUserId = true ∧
       hasExistingRating ratings raterId args = false)) ∧
    (∀ out, submitRating m ratings raterId args = Except.ok out →
      out = ratings ++ [newRating raterId args]) ∧
    ((anAttributeIsRated args || suggestionTruthy args.suggestion) = true →
      m.status = MatchStatus.completed →
      raterId ≠ args.ratedUserId →
      hasJoined m raterId = true →
      hasJoined m args.ratedUserId = true →
      hasExistingRating ratings raterId args = true →
      submitRating m ratings raterId args = Except.error RatingError.alreadyRated) := by
  refine ⟨⟨?_, ?_⟩, ?_, ?_⟩
  · intro h
    unfold submitRating at h
    split_ifs at h with h1 h2 h3 h4 h5 h6
    exact ⟨h1, not_ne_iff.mp h2, h3, h4, h5, by simpa using h6⟩
  · rintro ⟨hb, hst, hne, hr1, hr2, hdup⟩
    unfold submitRating
    rw [if_neg (not_not_intro hb), if_neg (by simp [hst]), if_neg hne,
      if_neg (not_not_intro hr1), if_neg (not_not_intro hr2), if_neg (by simp [hdup])]
  · intro out h
    unfold submitRating at h
    split_ifs at h
    injection h with h
    exact h.symm
  · intro hb hst hne hr1 hr2 hdup
    unfold submitRating
    rw [if_neg (not_not_intro hb), if_neg (by simp [hst]), if_neg hne,
      if_neg (not_not_intro hr1), if_neg (not_not_intro hr2), if_pos hdup]

def claim8Match : MatchState :=
  { creatorId := 0, location := "L", dateTime := 1, playersNeeded := 6, description := none,
    status := MatchStatus.completed, locationAvailable := true, partyName := "P",
    participants := [⟨1, Team.A, Position.defender⟩, ⟨2, Team.B, Position.defender⟩] }

def claim8Args : SubmitRatingArgs :=
  { matchId := 0, ratedUserId := 2, suggestion := none, speedGiven := some Grade.S,
    defenseGiven := none, offenseGiven := none, shootingGiven := none,
    dribblingGiven := none, passingGiven := none }

theorem claim8_submit_rating_witness :
    submitRating claim8Match [] 1 claim8Args = Except.ok ([] ++ [newRating 1 claim8Args]) ∧
    submitRating claim8Match [newRating 1 claim8Args] 1 claim8Args =
      Except.error RatingError.alreadyRated := by
  have h := claim8_submit_rating claim8Match [] 1 claim8Args
  have h2 := claim8_submit_rating claim8Match [newRating 1 claim8Args] 1 claim8Args
  exact ⟨h.1.mpr ⟨by decide, rfl, by decide, by decide, by decide, by decide⟩,
    h2.2.2 (by decide) rfl (by decide) (by decide) (by decide) (by decide)⟩

/-- The source's `gradeToValueMapping`: the representative numeric midpoint of
each grade. -/
def gradeToValueMapping : Grade → ℚ
  | .S => 95
  | .A => 85
  | .B => 75
  | .C => 65
  | .D => 55

/-- JS `Math.round` on the nonnegative rational averages arising here. -/
def jsRound (q : ℚ) : ℤ := ⌊q + 1 / 2⌋

/-- The source's `MIN_RATINGS_FOR_AVERAGE` constant. -/
def MIN_RATINGS_FOR_AVERAGE : Nat := 1

/-- The aggregate stat fields written to the rated user's profile. -/
structure ProfileStats where
  speed : Option ℤ
  defense : Option ℤ
  offense : Option ℤ
  shooting : Option ℤ
  dribbling : Option ℤ
  passing : Option ℤ
  overallScore : Option ℤ
  ratingsCount : Nat
  deriving DecidableEq

/-- The per-attribute step of the aggregation loop: with at least
`MIN_RATINGS_FOR_AVERAGE` valid grades, the rounded mean of their mapped
values, else null. -/
def aggregateAttribute (grades : List Grade) : Option ℤ :=
  if grades.length ≥ MIN_RATINGS_FOR_AVERAGE then
    some (jsRound ((grades.map gradeToValueMapping).sum / grades.length))
  else none

/-- The pure stats computation of `updateAggregatedProfileStats`: filter the
playerRatings received by the user, aggregate the six attributes, average the
set ones into `overallScore`, and count all received rows. -/
def updateAggregatedProfileStats (allRatings : List PlayerRating) (ratedUserId : Nat) :
    ProfileStats :=
  let allRatingsForUser := allRatings.filter (fun r => decide (r.ratedUserId = ratedUserId))
  let speed := aggregateAttribute (allRatingsForUser.filterMap (fun r => r.speedGiven))
  let defense := aggregateAttribute (allRatingsForUser.filterMap (fun r => r.defenseGiven))
  let offense := aggregateAttribute (allRatingsForUser.filterMap (fun r => r.offenseGiven))
  let shooting := aggregateAttribute (allRatingsForUser.filterMap (fun r => r.shootingGiven))
  let dribbling := aggregateAttribute (allRatingsForUser.filterMap (fun r => r.dribblingGiven))
  let passing := aggregateAttribute (allRatingsForUser.filterMap (fun r => r.passingGiven))
  let setStats := [speed, defense, offense, shooting, dribbling, passing].filterMap id
  let overallScore :=
    if setStats.length > 0 then
      some (jsRound ((setStats.map (Int.cast : ℤ → ℚ)).sum / setStats.length))
    else none
  { speed := speed, defense := defense, offense := offense, shooting := shooting,
    dribbling := dribbling, passing := passing, overallScore := overallScore,
    ratingsCount := allRatingsForUser.length }

/-- Rounded mean as the claim words it: round of the mean when the list is
non-empty, unset otherwise. -/
def roundMean (xs : List ℚ) : Option ℤ :=
  if xs = [] then none else some (jsRound (xs.sum / xs.length))

/-- All grades the user received for one attribute, across all matches. -/
def gradesFor (allRatings : List PlayerRating) (uid : Nat)
    (f : PlayerRating → Option Grade) : List Grade :=
  (allRatings.filter (fun r => decide (r.ratedUserId = uid))).filterMap f

theorem aggregateAttribute_eq_roundMean (grades : List Grade) :
    aggregateAttribute grades = roundMean (grades.map gradeToValueMapping) := by
  cases grades with
  | nil => simp [aggregateAttribute, roundMean, MIN_RATINGS_FOR_AVERAGE]
  | cons g gs => simp [aggregateAttribute, roundMean, MIN_RATINGS_FOR_AVERAGE]

theorem overallScore_eq_roundMean (zs : List ℤ) :
    (if zs.length > 0 then
        some (jsRound ((zs.map (Int.cast : ℤ → ℚ)).sum / zs.length))
      else none) =
    roundMean (zs.map (Int.cast : ℤ → ℚ)) := by
  cases zs with
  | nil => simp [roundMean]
  | cons z zs =>
    have hl : ((z :: zs).map (Int.cast : ℤ → ℚ)).length = (z :: zs).length :=
      List.length_map _ _
    rw [if_pos (by simp), roundMean, if_neg (by simp), hl]

/-- C9: each profile attribute is the rounded mean of the midpoints (S=95,
A=85, B=75, C=65, D=55) of all grades received for it, or unset when none
exists; `overallScore` is the rounded mean of the set attributes, or unset;
`ratingsCount` counts every rating row received. -/
theorem claim9_aggregation (l : List PlayerRating) (uid : Nat) :
    (updateAggregatedProfileStats l uid).speed =
      roundMean ((gradesFor l uid (fun r => r.speedGiven)).map gradeToValueMapping) ∧
    (updateAggregatedProfileStats l uid).defense =
      roundMean ((gradesFor l uid (fun r => r.defenseGiven)).map gradeToValueMapping) ∧
    (updateAggregatedProfileStats l uid).offense =
      roundMean ((gradesFor l uid (fun r => r.offenseGiven)).map gradeToValueMapping) ∧
    (updateAggregatedProfileStats l uid).shooting =
      roundMean ((gradesFor l uid (fun r => r.shootingGiven)).map gradeToValueMapping) ∧
    (updateAggregatedProfileStats l uid).dribbling =
      roundMean ((gradesFor l uid (fun r => r.dribblingGiven)).map gradeToValueMapping) ∧
    (updateAggregatedProfileStats l uid).passing =
      roundMean ((gradesFor l uid (fun r => r.passingGiven)).map gradeToValueMapping) ∧
    (updateAggregatedProfileStats l uid).overallScore =
      roundMean (([(updateAggregatedProfileStats l uid).speed,
        (updateAggregatedProfileStats l uid).defense,
        (updateAggregatedProfileStats l uid).offense,
        (updateAggregatedProfileStats l uid).shooting,
        (updateAggregatedProfileStats l uid).dribbling,
        (updateAggregatedProfileStats l uid).passing].filterMap id).map
        (Int.cast : ℤ → ℚ)) ∧
    (updateAggregatedProfileStats l uid).ratingsCount =
      (l.filter (fun r => decide (r.ratedUserId = uid))).length := by
  refine ⟨?_, ?_, ?_, ?_, ?_, ?_, ?_, rfl⟩
  · exact aggregateAttribute_eq_roundMean (gradesFor l uid (fun r => r.speedGiven))
  · exact aggregateAttribute_eq_roundMean (gradesFor l uid (fun r => r.defenseGiven))
  · exact aggregateAttribute_eq_roundMean (gradesFor l uid (fun r => r.offenseGiven))
  · exact aggregateAttribute_eq_roundMean (gradesFor l uid (fun r => r.shootingGiven))
  · exact aggregateAttribute_eq_roundMean (gradesFor l uid (fun r => r.dribblingGiven))
  · exact aggregateAttribute_eq_roundMean (gradesFor l uid (fun r => r.passingGiven))
  · exact overallScore_eq_roundMean
      ([aggregateAttribute (gradesFor l uid (fun r => r.speedGiven)),
        aggregateAttribute (gradesFor l uid (fun r => r.defenseGiven)),
        aggregateAttribute (gradesFor l uid (fun r => r.offenseGiven)),
        aggregateAttribute (gradesFor l uid (fun r => r.shootingGiven)),
        aggregateAttribute (gradesFor l uid (fun r => r.dribblingGiven)),
        aggregateAttribute (gradesFor l uid (fun r => r.passingGiven))].filterMap id)

/-- One `userProfiles` row: the fields the aggregation writes, plus
`displayName` standing in for the profile fields it must leave alone. -/
structure UserProfileRow where
  userId : Nat
  displayName : Option String
  speed : Option ℤ
  defense : Option ℤ
  offense : Option ℤ
  shooting : Option ℤ
  dribbling : Option ℤ
  passing : Option ℤ
  overallScore : Option ℤ
  ratingsCount : Option Nat
  deriving DecidableEq

/-- The database slice `updateAggregatedProfileStats` reads and writes. -/
structure Db where
  playerRatings : List PlayerRating
  userProfiles : List UserProfileRow
  deriving DecidableEq

/-- The patch step `ctx.db.patch(userProfile._id, finalUpdate)`: overwrite
only the stat fields. -/
def patchProfile (row : UserProfileRow) (stats : ProfileStats) : UserProfileRow :=
  { row with
    speed := stats.speed
    defense := stats.defense
    offense := stats.offense
    shooting := stats.shooting
    dribbling := stats.dribbling
    passing := stats.passing
    overallScore := stats.overallScore
    ratingsCount := some stats.ratingsCount }

/-- The `updateAggregatedProfileStats` mutation as a database transition:
compute the stats, look up the rated user's profile row (unique by userId),
patch it when present; when absent only a warning is logged — no write, no
insert — and the mutation still returns `{ success: true, updatedStats }`. -/
def runUpdateAggregatedProfileStats (db : Db) (ratedUserId : Nat) : Db × ProfileStats :=
  let stats := updateAggregatedProfileStats db.playerRatings ratedUserId
  match db.userProfiles.find? (fun row => decide (row.userId = ratedUserId)) with
  | some _ =>
    ({ db with
        userProfiles := db.userProfiles.map
          (fun q => if q.userId = ratedUserId then patchProfile q stats else q) },
      stats)
  | none => (db, stats)

/-- C10: when the rated user has no profile row, the aggregation writes
nothing at all — the database is returned unchanged, no row is created, the
computed stats are merely returned — and the call succeeds. -/
theorem claim10_no_profile_no_write (db : Db) (uid : Nat)
    (h : db.userProfiles.find? (fun row => decide (row.userId = uid)) = none) :
    runUpdateAggregatedProfileStats db uid =
      (db, updateAggregatedProfileStats db.playerRatings uid) := by
  unfold runUpdateAggregatedProfileStats
  rw [h]

def claim10Db : Db := { playerRatings := [], userProfiles := [] }

theorem claim10_no_profile_no_write_witness :
    runUpdateAggregatedProfileStats claim10Db 5 =
      (claim10Db, updateAggregatedProfileStats claim10Db.playerRatings 5) :=
  claim10_no_profile_no_write claim10Db 5 rfl
